import Mathlib

/-!
Verification of the transparent-md clinical reasoning core.

The Python source is shallowly embedded: dictionaries become association
lists (Python dicts iterate in insertion order), floats become exact
rationals (no claim under consideration depends on IEEE rounding), and the
external embedding collaborator of the evaluation pipeline is a parameter
`encode : String → List ℚ` together with a similarity function
`cos : List ℚ → List ℚ → ℚ`, as the spec itself treats them as opaque
collaborators.  `numpy.mean` of an empty list yields NaN; NaN-producing or
raising computations are modelled with `Option`/`Except`.
-/

/-- Single-quote character, used when rebuilding the textual form that
Python `str(vignette.__dict__)` produces. -/
def squote : String := String.singleton (Char.ofNat 39)

/-- Whether the first character list is an initial segment of the second. -/
def leadsList : List Char → List Char → Bool
  | [], _ => true
  | _ :: _, [] => false
  | a :: as, b :: bs => a == b && leadsList as bs

/-- Whether the first character list occurs contiguously inside the second. -/
def occursIn (needle : List Char) : List Char → Bool
  | [] => leadsList needle []
  | b :: bs => leadsList needle (b :: bs) || occursIn needle bs

/-- Character-wise lowercasing, the model of Python `str.lower()`. -/
def lowerChars (l : List Char) : List Char := l.map Char.toLower

/-- Case-insensitive substring test: Python `needle.lower() in hay.lower()`.
Python `in` on strings is containment; an empty needle is always found. -/
def strContains (hay needle : String) : Bool :=
  occursIn (lowerChars needle.data) (lowerChars hay.data)

/-- `src/core/clinical_reasoning.py` `ClinicalVignette` (pydantic model).
Fields keep declaration order; dict-valued fields are association
lists in insertion order. -/
structure ClinicalVignette where
  patient_id : String
  age : Int
  gender : String
  chief_complaint : String
  history_of_present_illness : String
  physical_examination : List (String × String)
  laboratory_findings : List (String × String)
  imaging_findings : Option (List (String × String)) := none
  additional_notes : Option String := none
deriving DecidableEq

/-- `src/core/clinical_reasoning.py` `DiagnosticStep`. -/
structure DiagnosticStep where
  step_number : Nat
  reasoning : String
  supporting_evidence : List String
  guideline_reference : Option String := none
  confidence_score : ℚ
deriving DecidableEq

/-- One guideline record of the corpus JSON: `id`, `title`, `criteria`,
`risk_factors` (the source reads them with `guideline.get(..., [])` /
direct indexing). -/
structure Guideline where
  id : String
  title : String
  criteria : List String
  risk_factors : List String
deriving DecidableEq

/-- An entry of the `matched_guidelines` list built by `_match_guidelines`. -/
structure MatchResult where
  guideline : Guideline
  match_score : ℚ
deriving DecidableEq

/-- Python `repr` of a string value inside a dict display (assumes the
value contains no quote or escape-worthy character, which is all the model
needs: the matcher only searches this text for substrings). -/
def pyReprStr (s : String) : String := squote ++ s ++ squote

/-- Python `repr` of a `Dict[str, str]`. -/
def pyReprDict (l : List (String × String)) : String :=
  "\x7b" ++ ", ".intercalate (l.map fun p => pyReprStr p.1 ++ ": " ++ pyReprStr p.2) ++ "\x7d"

/-- Python `repr` of an `Optional[Dict[str, str]]`. -/
def pyReprOptDict : Option (List (String × String)) → String
  | none => "None"
  | some d => pyReprDict d

/-- Python `repr` of an `Optional[str]`. -/
def pyReprOptStr : Option String → String
  | none => "None"
  | some s => pyReprStr s

/-- `str(vignette.__dict__)`: the dict display of the vignette's fields in
declaration order.  This is the "full textual representation" the matcher
scans for risk factors. -/
def vignetteRepr (v : ClinicalVignette) : String :=
  "\x7b" ++ pyReprStr "patient_id" ++ ": " ++ pyReprStr v.patient_id ++
  ", " ++ pyReprStr "age" ++ ": " ++ toString v.age ++
  ", " ++ pyReprStr "gender" ++ ": " ++ pyReprStr v.gender ++
  ", " ++ pyReprStr "chief_complaint" ++ ": " ++ pyReprStr v.chief_complaint ++
  ", " ++ pyReprStr "history_of_present_illness" ++ ": " ++ pyReprStr v.history_of_present_illness ++
  ", " ++ pyReprStr "physical_examination" ++ ": " ++ pyReprDict v.physical_examination ++
  ", " ++ pyReprStr "laboratory_findings" ++ ": " ++ pyReprDict v.laboratory_findings ++
  ", " ++ pyReprStr "imaging_findings" ++ ": " ++ pyReprOptDict v.imaging_findings ++
  ", " ++ pyReprStr "additional_notes" ++ ": " ++ pyReprOptStr v.additional_notes ++
  "\x7d"

/-- The `criteria_met` counter of `_match_guidelines`: criteria found
case-insensitively in the chief complaint or the history text. -/
def criteria_met (g : Guideline) (v : ClinicalVignette) : Nat :=
  (g.criteria.filter fun c =>
    strContains v.chief_complaint c || strContains v.history_of_present_illness c).length

/-- The `risk_factors_met` counter of `_match_guidelines`: risk factors
found case-insensitively in `str(vignette.__dict__)`. -/
def risk_factors_met (g : Guideline) (v : ClinicalVignette) : Nat :=
  (g.risk_factors.filter fun r => strContains (vignetteRepr v) r).length

/-- `match_score = (criteria_met / total_criteria + risk_factors_met / total_risk_factors) / 2`
(only ever used when both totals are positive). -/
def match_score_of (v : ClinicalVignette) (g : Guideline) : ℚ :=
  ((criteria_met g v : ℚ) / (g.criteria.length : ℚ) +
   (risk_factors_met g v : ℚ) / (g.risk_factors.length : ℚ)) / 2

/-- The loop body of `_match_guidelines`: the guideline contributes an
entry only when both totals are positive and the score clears 0.5. -/
def candidateOf (v : ClinicalVignette) (g : Guideline) : Option MatchResult :=
  if 0 < g.criteria.length ∧ 0 < g.risk_factors.length then
    if (1 : ℚ)/2 < match_score_of v g then
      some { guideline := g, match_score := match_score_of v g }
    else none
  else none

/-- The unsorted `matched_guidelines` list, in corpus iteration order. -/
def matchCandidates (gs : List Guideline) (v : ClinicalVignette) : List MatchResult :=
  gs.filterMap (candidateOf v)

/-- Stable insertion into a descending-sorted list: the new element goes
after every strictly larger element and before the first element that is
not strictly larger (so earlier elements win ties, as with Python's stable
`sorted(..., reverse=True)`). -/
def insertDesc (x : MatchResult) : List MatchResult → List MatchResult
  | [] => [x]
  | y :: ys =>
      if x.match_score < y.match_score then y :: insertDesc x ys
      else x :: y :: ys

/-- Stable sort by `match_score` descending, modelling Python
`sorted(matched_guidelines, key=lambda x: x["match_score"], reverse=True)`. -/
def sortDesc : List MatchResult → List MatchResult
  | [] => []
  | x :: xs => insertDesc x (sortDesc xs)

/-- `TransparentReasoningEngine._match_guidelines`: filter by the 0.5
threshold, then stable-sort descending by score. -/
def match_guidelines (gs : List Guideline) (v : ClinicalVignette) : List MatchResult :=
  sortDesc (matchCandidates gs v)

/-- Evidence of step 4: `"field: value"` strings from the lab findings and
then the imaging findings (Python skips a falsy — absent or empty — dict,
which contributes nothing either way). -/
def findingsEvidence (v : ClinicalVignette) : List String :=
  (v.laboratory_findings.map fun p => p.1 ++ ": " ++ p.2) ++
  (match v.imaging_findings with
   | none => []
   | some im => im.map fun p => p.1 ++ ": " ++ p.2)

/-- `TransparentReasoningEngine.process_vignette`: four fixed steps, plus a
fifth guideline-based step when `_match_guidelines` returned anything. -/
def process_vignette (gs : List Guideline) (v : ClinicalVignette) : List DiagnosticStep :=
  let matched_guidelines := match_guidelines gs v
  let base : List DiagnosticStep :=
    [ { step_number := 1,
        reasoning := "Initial assessment based on chief complaint: " ++ v.chief_complaint,
        supporting_evidence := [v.chief_complaint],
        confidence_score := 9/10 },
      { step_number := 2,
        reasoning := "Analysis of history of present illness: " ++ v.history_of_present_illness,
        supporting_evidence := [v.history_of_present_illness],
        confidence_score := 85/100 },
      { step_number := 3,
        reasoning := "Physical examination findings analysis",
        supporting_evidence := v.physical_examination.map fun p => p.1 ++ ": " ++ p.2,
        confidence_score := 8/10 },
      { step_number := 4,
        reasoning := "Analysis of laboratory and imaging findings",
        supporting_evidence := findingsEvidence v,
        confidence_score := 85/100 } ]
  match matched_guidelines with
  | [] => base
  | top :: _ =>
      base ++
      [ { step_number := 5,
          reasoning := "Assessment based on " ++ top.guideline.title,
          supporting_evidence := top.guideline.criteria,
          guideline_reference := some top.guideline.id,
          confidence_score := top.match_score } ]

/-- Python truthiness of an `Optional[str]`: `None` and the empty string
are falsy; `if step.guideline_reference:` tests exactly this. -/
def pyTruthyStr : Option String → Bool
  | none => false
  | some s => !(s == "")

/-- `TransparentReasoningEngine.get_guideline_references`: empty list for a
falsy reference (None or empty string), otherwise the criteria of the
first corpus guideline with the matching id, or empty list. -/
def get_guideline_references (gs : List Guideline) (step : DiagnosticStep) : List String :=
  if pyTruthyStr step.guideline_reference = false then []
  else
    match step.guideline_reference with
    | none => []
    | some r =>
        match gs.find? (fun g => g.id == r) with
        | some g => g.criteria
        | none => []

/-- `TransparentReasoningEngine.evaluate_confidence`: evidence-count base,
boosted by 0.2 when the guideline reference is truthy, both capped at 1. -/
def evaluate_confidence (step : DiagnosticStep) : ℚ :=
  let base_confidence := min 1 ((step.supporting_evidence.length : ℚ) / 5)
  if pyTruthyStr step.guideline_reference then min 1 (base_confidence + 2/10)
  else base_confidence

/-- `numpy.mean` over a list of rationals; the mean of an empty list is NaN
in numpy, modelled as `none`. -/
def npMean (l : List ℚ) : Option ℚ :=
  if l.isEmpty then none else some (l.sum / (l.length : ℚ))

/-- Result record of `EvaluationMetrics.evaluate_reasoning_structure`; the
`Option` carries `none` where numpy would produce NaN. -/
structure StructureMetrics where
  step_coherence : Option ℚ
  reasoning_flow : Option ℚ
deriving DecidableEq

/-- `EvaluationMetrics.evaluate_reasoning_structure`, parametrized by the
embedding collaborator `encode` and the similarity function `cos`.  The
guard `if not reasoning_steps:` fires only on the empty list; otherwise
consecutive-pair similarities are averaged and the flow compares the first
and last embeddings. -/
def evaluate_reasoning_structure (encode : String → List ℚ)
    (cos : List ℚ → List ℚ → ℚ) (reasoning_steps : List String) :
    StructureMetrics :=
  if reasoning_steps.isEmpty then
    { step_coherence := some 0, reasoning_flow := some 0 }
  else
    let step_embeddings := reasoning_steps.map encode
    let consecutive_similarities :=
      (List.range (reasoning_steps.length - 1)).map fun i =>
        cos (step_embeddings.getD i []) (step_embeddings.getD (i + 1) [])
    { step_coherence := npMean consecutive_similarities,
      reasoning_flow :=
        some (cos (step_embeddings.getD 0 []) (step_embeddings.getLastD [])) }

/-- Result record of `EvaluationMetrics.evaluate_guideline_adherence`. -/
structure AdherenceMetrics where
  max_guideline_similarity : ℚ
  mean_guideline_similarity : ℚ
  guideline_coverage : ℚ
deriving DecidableEq

/-- `numpy.max` over a list, `none` on the empty list (where numpy raises). -/
def npMax : List ℚ → Option ℚ
  | [] => none
  | x :: xs => some (xs.foldl max x)

/-- The similarity row `cosine_similarity([reasoning_embedding], guideline_embeddings)[0]`. -/
def simRow (encode : String → List ℚ) (cos : List ℚ → List ℚ → ℚ)
    (reasoning : String) (guidelines : List String) : List ℚ :=
  guidelines.map fun g => cos (encode reasoning) (encode g)

/-- `EvaluationMetrics.evaluate_guideline_adherence`.  With an empty
guideline list, `cosine_similarity` receives a 0-sample matrix and raises
`ValueError` (sklearn requires at least one sample), modelled as `.error`;
otherwise the max, mean and above-0.5 fraction of the similarities. -/
def evaluate_guideline_adherence (encode : String → List ℚ)
    (cos : List ℚ → List ℚ → ℚ) (reasoning : String)
    (guidelines : List String) : Except String AdherenceMetrics :=
  if guidelines.isEmpty then
    Except.error "Found array with 0 samples"
  else
    let similarities := simRow encode cos reasoning guidelines
    Except.ok
      { max_guideline_similarity := (npMax similarities).getD 0,
        mean_guideline_similarity := similarities.sum / (similarities.length : ℚ),
        guideline_coverage :=
          ((similarities.filter fun s => (1 : ℚ)/2 < s).length : ℚ) /
            (similarities.length : ℚ) }

/-- The default weights of `EvaluationMetrics.calculate_overall_score`. -/
def defaultWeights : List (String × ℚ) :=
  [("guideline_adherence", 4/10), ("reasoning_structure", 3/10), ("completeness", 3/10)]

/-- Python `weights[category]`: first binding of the key, `none` where the
dict lookup would raise `KeyError`. -/
def lookupW (weights : List (String × ℚ)) (k : String) : Option ℚ :=
  (weights.find? fun p => p.1 == k).map Prod.snd

/-- The accumulation loop of `calculate_overall_score`; `none` models a
run that raised `KeyError` or whose running score became NaN (mean of an
empty metric bundle). -/
def overallLoop (w : List (String × ℚ)) :
    List (String × List ℚ) → ℚ → Option ℚ
  | [], score => some score
  | p :: rest, score =>
      match npMean p.2, lookupW w p.1 with
      | some m, some wt => overallLoop w rest (score + m * wt)
      | _, _ => none

/-- `EvaluationMetrics.calculate_overall_score`: category means weighted by
the (caller-supplied or default) weights and summed. -/
def calculate_overall_score (metrics : List (String × List ℚ))
    (weights : Option (List (String × ℚ))) : Option ℚ :=
  overallLoop (weights.getD defaultWeights) metrics 0

/-- Modelled from the spec: the observation-mode confidence evaluator is
not under `src/` (only the flat-mode engine is); spec section 4.4 gives
`score = min(1.0, 0.5 + 0.1 * reference_count)`. -/
def observation_confidence (reference_count : Nat) : ℚ :=
  min 1 (1/2 + (1/10) * (reference_count : ℚ))

/-- Modelled from the spec: the observation-mode guideline-reference
resolver is not under `src/`; spec section 4.3 appends, for every corpus
entry whose serialized text contains the step's diagnosis
(case-insensitively), one reference string identifying that entry, in
corpus iteration order. -/
def observation_references (corpus : List (String × String))
    (diagnosis : String) : List String :=
  (corpus.filter fun e => strContains e.2 diagnosis).map Prod.fst

/-! ## Lemmas about the stable descending sort -/

theorem mem_insertDesc {a x : MatchResult} {l : List MatchResult} :
    a ∈ insertDesc x l ↔ a = x ∨ a ∈ l := by
  induction l with
  | nil => simp [insertDesc]
  | cons y ys ih =>
      rw [insertDesc]
      split
      · simp only [List.mem_cons, ih]
        tauto
      · simp [List.mem_cons]

theorem mem_sortDesc {a : MatchResult} {l : List MatchResult} :
    a ∈ sortDesc l ↔ a ∈ l := by
  induction l with
  | nil => simp [sortDesc]
  | cons x xs ih => simp [sortDesc, mem_insertDesc, ih]

theorem pairwise_insertDesc {x : MatchResult} {l : List MatchResult}
    (h : List.Pairwise (fun a b => b.match_score ≤ a.match_score) l) :
    List.Pairwise (fun a b => b.match_score ≤ a.match_score) (insertDesc x l) := by
  induction l with
  | nil => simp [insertDesc]
  | cons y ys ih =>
      rw [List.pairwise_cons] at h
      obtain ⟨hy, hys⟩ := h
      rw [insertDesc]
      split
      case isTrue hlt =>
        rw [List.pairwise_cons]
        refine ⟨?_, ih hys⟩
        intro b hb
        rcases mem_insertDesc.mp hb with rfl | hb
        · exact le_of_lt hlt
        · exact hy b hb
      case isFalse hge =>
        rw [List.pairwise_cons]
        refine ⟨?_, List.pairwise_cons.mpr ⟨hy, hys⟩⟩
        intro b hb
        rcases List.mem_cons.mp hb with rfl | hb
        · exact le_of_not_lt hge
        · exact le_trans (hy b hb) (le_of_not_lt hge)

theorem pairwise_sortDesc (l : List MatchResult) :
    List.Pairwise (fun a b => b.match_score ≤ a.match_score) (sortDesc l) := by
  induction l with
  | nil => simp [sortDesc]
  | cons x xs ih => exact pairwise_insertDesc ih

theorem filter_insertDesc_same {x : MatchResult} {s : ℚ}
    (hx : x.match_score = s) (l : List MatchResult) :
    (insertDesc x l).filter (fun m => decide (m.match_score = s)) =
      x :: l.filter (fun m => decide (m.match_score = s)) := by
  induction l with
  | nil => simp [insertDesc, hx]
  | cons y ys ih =>
      rw [insertDesc]
      split
      case isTrue hlt =>
        have hy : ¬ y.match_score = s := ne_of_gt (hx ▸ hlt)
        simp only [List.filter_cons, decide_eq_true_eq]
        rw [if_neg hy, ih, if_neg hy]
      case isFalse hge =>
        simp only [List.filter_cons, decide_eq_true_eq]
        rw [if_pos hx]

theorem filter_insertDesc_other {x : MatchResult} {s : ℚ}
    (hx : ¬ x.match_score = s) (l : List MatchResult) :
    (insertDesc x l).filter (fun m => decide (m.match_score = s)) =
      l.filter (fun m => decide (m.match_score = s)) := by
  induction l with
  | nil => simp [insertDesc, hx]
  | cons y ys ih =>
      rw [insertDesc]
      split
      case isTrue hlt =>
        simp only [List.filter_cons, decide_eq_true_eq]
        rw [ih]
      case isFalse hge =>
        simp only [List.filter_cons, decide_eq_true_eq]
        rw [if_neg hx]

theorem filter_sortDesc (l : List MatchResult) (s : ℚ) :
    (sortDesc l).filter (fun m => decide (m.match_score = s)) =
      l.filter (fun m => decide (m.match_score = s)) := by
  induction l with
  | nil => rfl
  | cons x xs ih =>
      rw [sortDesc]
      by_cases hx : x.match_score = s
      · rw [filter_insertDesc_same hx, ih, List.filter_cons]
        simp [hx]
      · rw [filter_insertDesc_other hx, ih, List.filter_cons]
        simp [hx]

/-- C8: the matcher's output is sorted in non-increasing order of
`match_score`; retained guidelines with equal score keep their corpus
iteration order (the sub-list at any fixed score equals the unsorted
candidate sub-list); and the matcher is a pure function, so identical
inputs give an identical output list. -/
theorem C8_ranking_sorted_stable_deterministic (gs : List Guideline)
    (v : ClinicalVignette) (s : ℚ) :
    List.Pairwise (fun a b => b.match_score ≤ a.match_score)
      (match_guidelines gs v) ∧
    (match_guidelines gs v).filter (fun m => decide (m.match_score = s)) =
      (matchCandidates gs v).filter (fun m => decide (m.match_score = s)) ∧
    match_guidelines gs v = match_guidelines gs v :=
  ⟨pairwise_sortDesc _, filter_sortDesc _ _, rfl⟩

/-! ## Lemmas about the match score and the candidate set -/

theorem ratio_le_one {a b : Nat} (hab : a ≤ b) (hb : 0 < b) :
    (a : ℚ) / (b : ℚ) ≤ 1 := by
  rw [div_le_one (by exact_mod_cast hb)]
  exact_mod_cast hab

theorem match_score_nonneg (v : ClinicalVignette) (g : Guideline) :
    0 ≤ match_score_of v g := by
  unfold match_score_of
  positivity

theorem match_score_le_one {v : ClinicalVignette} {g : Guideline}
    (hc : g.criteria ≠ []) (hr : g.risk_factors ≠ []) :
    match_score_of v g ≤ 1 := by
  have h1 : (criteria_met g v : ℚ) / (g.criteria.length : ℚ) ≤ 1 :=
    ratio_le_one (List.length_filter_le _ _) (List.length_pos.mpr hc)
  have h2 : (risk_factors_met g v : ℚ) / (g.risk_factors.length : ℚ) ≤ 1 :=
    ratio_le_one (List.length_filter_le _ _) (List.length_pos.mpr hr)
  unfold match_score_of
  linarith

theorem candidateOf_eq_some {v : ClinicalVignette} {g : Guideline}
    {m : MatchResult} :
    candidateOf v g = some m ↔
      (0 < g.criteria.length ∧ 0 < g.risk_factors.length) ∧
      (1 : ℚ)/2 < match_score_of v g ∧
      m = { guideline := g, match_score := match_score_of v g } := by
  unfold candidateOf
  split
  case isTrue h =>
    split
    case isTrue h2 =>
      constructor
      · intro he
        injection he with he
        exact ⟨h, h2, he.symm⟩
      · rintro ⟨_, _, rfl⟩
        rfl
    case isFalse h2 =>
      constructor
      · intro he
        exact Option.noConfusion he
      · rintro ⟨_, h2x, _⟩
        exact absurd h2x h2
  case isFalse h =>
    constructor
    · intro he
      exact Option.noConfusion he
    · rintro ⟨hx, _, _⟩
      exact absurd hx h

/-- C1: for every corpus guideline with non-empty criteria and non-empty
risk factors, the match score is the average of the criteria hit ratio
(criteria found case-insensitively in the chief complaint or history) and
the risk-factor hit ratio (risk factors found in the stringified
vignette); it lies in [0, 1]; the guideline appears in the ranked output
exactly when the score exceeds 0.5; and entries with empty criteria or
risk factors never appear in the output. -/
theorem C1_match_score_threshold (gs : List Guideline) (v : ClinicalVignette)
    (g : Guideline) (hg : g ∈ gs) (hc : g.criteria ≠ [])
    (hr : g.risk_factors ≠ []) :
    0 ≤ match_score_of v g ∧ match_score_of v g ≤ 1 ∧
    ((∃ m ∈ match_guidelines gs v, m.guideline = g) ↔
      (1 : ℚ)/2 < match_score_of v g) ∧
    ∀ m ∈ match_guidelines gs v,
      m.guideline.criteria ≠ [] ∧ m.guideline.risk_factors ≠ [] := by
  refine ⟨match_score_nonneg v g, match_score_le_one hc hr, ?_, ?_⟩
  · constructor
    · rintro ⟨m, hm, hmg⟩
      rw [match_guidelines, mem_sortDesc, matchCandidates] at hm
      obtain ⟨g2, hg2, hsome⟩ := List.mem_filterMap.mp hm
      obtain ⟨_, hthr, rfl⟩ := candidateOf_eq_some.mp hsome
      have hgg : g2 = g := hmg
      rw [← hgg]
      exact hthr
    · intro hthr
      refine ⟨{ guideline := g, match_score := match_score_of v g }, ?_, rfl⟩
      rw [match_guidelines, mem_sortDesc, matchCandidates]
      exact List.mem_filterMap.mpr ⟨g, hg, candidateOf_eq_some.mpr
        ⟨⟨List.length_pos.mpr hc, List.length_pos.mpr hr⟩, hthr, rfl⟩⟩
  · intro m hm
    rw [match_guidelines, mem_sortDesc, matchCandidates] at hm
    obtain ⟨g2, hg2, hsome⟩ := List.mem_filterMap.mp hm
    obtain ⟨⟨hp1, hp2⟩, _, rfl⟩ := candidateOf_eq_some.mp hsome
    exact ⟨List.ne_nil_of_length_pos hp1, List.ne_nil_of_length_pos hp2⟩

/-- Guideline of the concrete matching scenario (spec section 8). -/
def c1Guide : Guideline :=
  { id := "G1", title := "Acute Coronary Syndrome",
    criteria := ["chest pain", "shortness of breath"],
    risk_factors := ["smoking"] }

/-- Case of the concrete matching scenario (spec section 8). -/
def c1Case : ClinicalVignette :=
  { patient_id := "P1", age := 60, gender := "M",
    chief_complaint := "acute chest pain",
    history_of_present_illness := "smoking history",
    physical_examination := [], laboratory_findings := [] }

/-- Witness for C1 at the spec's own example: one guideline, chief
complaint matching one of two criteria and history matching the single
risk factor. -/
theorem C1_witness :
    0 ≤ match_score_of c1Case c1Guide ∧ match_score_of c1Case c1Guide ≤ 1 ∧
    ((∃ m ∈ match_guidelines [c1Guide] c1Case, m.guideline = c1Guide) ↔
      (1 : ℚ)/2 < match_score_of c1Case c1Guide) ∧
    ∀ m ∈ match_guidelines [c1Guide] c1Case,
      m.guideline.criteria ≠ [] ∧ m.guideline.risk_factors ≠ [] :=
  C1_match_score_threshold [c1Guide] c1Case c1Guide (by decide) (by decide)
    (by decide)

/-- C3: the flat-mode step list has exactly 4 steps when no guideline
clears the 0.5 threshold and exactly 5 when one does, and the step numbers
are always the consecutive sequence 1..N. -/
theorem C3_step_count_and_numbering (gs : List Guideline)
    (v : ClinicalVignette) :
    (process_vignette gs v).length =
      (if match_guidelines gs v = [] then 4 else 5) ∧
    (process_vignette gs v).map DiagnosticStep.step_number =
      List.range' 1 (process_vignette gs v).length := by
  cases h : match_guidelines gs v with
  | nil =>
      rw [process_vignette]
      simp only [h]
      refine ⟨rfl, ?_⟩
      rfl
  | cons top rest =>
      rw [process_vignette]
      simp only [h]
      refine ⟨?_, ?_⟩ <;> simp [h, List.range']

/-- C10: the first four steps of the flat-mode output are identical for
any two guideline corpora (same vignette) and carry the fixed confidences
0.9, 0.85, 0.8, 0.85; the corpus can only influence the fifth step. -/
theorem C10_first_four_steps_fixed (gs1 gs2 : List Guideline)
    (v : ClinicalVignette) :
    (process_vignette gs1 v).take 4 = (process_vignette gs2 v).take 4 ∧
    ((process_vignette gs1 v).take 4).map DiagnosticStep.confidence_score =
      [9/10, 85/100, 8/10, 85/100] := by
  have key : ∀ gs : List Guideline,
      (process_vignette gs v).take 4 = (process_vignette [] v).take 4 := by
    intro gs
    cases h : match_guidelines gs v with
    | nil =>
        rw [process_vignette, process_vignette]
        simp only [h]
        rfl
    | cons top rest =>
        rw [process_vignette, process_vignette]
        simp only [h]
        rfl
  refine ⟨(key gs1).trans (key gs2).symm, ?_⟩
  rw [key gs1]
  rfl

/-- A step whose guideline reference is the empty string: a value that is
present but falsy in Python. -/
def c4Step : DiagnosticStep :=
  { step_number := 1, reasoning := "r", supporting_evidence := [],
    guideline_reference := some "", confidence_score := 0 }

/-- C4 counterexample: a step carrying the empty-string guideline-reference
identifier does not get the +0.2 boost, because the source tests Python
truthiness (`if diagnostic_step.guideline_reference:`), under which the
empty string counts as absent: the code returns 0 where the claim's
formula gives 0.2. -/
theorem C4_counterexample :
    c4Step.guideline_reference = some "" ∧
    evaluate_confidence c4Step ≠
      min 1 (min 1 ((c4Step.supporting_evidence.length : ℚ) / 5) + 2/10) := by
  refine ⟨rfl, ?_⟩
  simp only [evaluate_confidence, c4Step, pyTruthyStr]
  norm_num [min_def]

/-- C4 (amended): with a falsy reference (none, or the empty string, which
Python truthiness treats as absent) the confidence is
`min 1 (evidence_count / 5)`; with a non-empty reference it is
`min 1 (min 1 (evidence_count / 5) + 0.2)`; and the result always lies in
[0, 1], whatever the evidence count. -/
theorem C4_confidence_formula_amended (step : DiagnosticStep) :
    (pyTruthyStr step.guideline_reference = false →
      evaluate_confidence step =
        min 1 ((step.supporting_evidence.length : ℚ) / 5)) ∧
    (∀ r, step.guideline_reference = some r → r ≠ "" →
      evaluate_confidence step =
        min 1 (min 1 ((step.supporting_evidence.length : ℚ) / 5) + 2/10)) ∧
    0 ≤ evaluate_confidence step ∧ evaluate_confidence step ≤ 1 := by
  have hbase0 : (0 : ℚ) ≤ min 1 ((step.supporting_evidence.length : ℚ) / 5) :=
    le_min (by norm_num) (by positivity)
  refine ⟨?_, ?_, ?_, ?_⟩
  · intro h
    rw [evaluate_confidence]
    simp only [h]
    rfl
  · intro r hr hne
    have ht : pyTruthyStr step.guideline_reference = true := by
      rw [hr, pyTruthyStr]
      simpa using hne
    rw [evaluate_confidence]
    simp only [ht]
    rfl
  · rw [evaluate_confidence]
    split
    · exact le_min (by norm_num) (by linarith)
    · exact hbase0
  · rw [evaluate_confidence]
    split
    · exact min_le_left _ _
    · exact min_le_left _ _

/-- A step with 1000 evidence items and a non-empty guideline reference,
exercising the clamping part of C4. -/
def c4Large : DiagnosticStep :=
  { step_number := 1, reasoning := "r",
    supporting_evidence := List.replicate 1000 "e",
    guideline_reference := some "G1", confidence_score := 0 }

/-- Witness for the amended C4 at a step with 1000 evidence items and a
non-empty guideline reference. -/
theorem C4_witness :
    (pyTruthyStr c4Large.guideline_reference = false →
      evaluate_confidence c4Large =
        min 1 ((c4Large.supporting_evidence.length : ℚ) / 5)) ∧
    (∀ r, c4Large.guideline_reference = some r → r ≠ "" →
      evaluate_confidence c4Large =
        min 1 (min 1 ((c4Large.supporting_evidence.length : ℚ) / 5) + 2/10)) ∧
    0 ≤ evaluate_confidence c4Large ∧ evaluate_confidence c4Large ≤ 1 :=
  C4_confidence_formula_amended c4Large

/-- Corpus guideline whose identifier is the empty string, used by the C9
counterexample. -/
def c9Guide : Guideline :=
  { id := "", title := "T", criteria := ["c1"], risk_factors := ["r1"] }

/-- Step whose guideline reference is the empty string, used by the C9
counterexample. -/
def c9Step : DiagnosticStep :=
  { step_number := 1, reasoning := "r", supporting_evidence := [],
    guideline_reference := some "", confidence_score := 0 }

/-- C9 counterexample: the step carries the identifier "" and the corpus
holds a guideline with exactly that identifier, yet the resolver returns
the empty list instead of that guideline's criteria, because the source
tests Python truthiness (`if not diagnostic_step.guideline_reference:`)
under which the empty string counts as absent. -/
theorem C9_counterexample :
    c9Step.guideline_reference = some "" ∧ c9Guide ∈ [c9Guide] ∧
    c9Guide.id = "" ∧
    get_guideline_references [c9Guide] c9Step ≠ c9Guide.criteria := by
  refine ⟨rfl, List.mem_singleton.mpr rfl, rfl, ?_⟩
  decide

/-- C9 (amended): with a falsy reference (none, or the empty string, which
Python truthiness treats as absent) the resolver returns the empty list;
with a non-empty identifier it returns the criteria of the unique corpus
guideline carrying that identifier verbatim, or the empty list when no
corpus guideline carries it. -/
theorem C9_reference_resolution_amended (gs : List Guideline)
    (step : DiagnosticStep) :
    (pyTruthyStr step.guideline_reference = false →
      get_guideline_references gs step = []) ∧
    (∀ r, step.guideline_reference = some r → r ≠ "" →
      ((∀ g ∈ gs, g.id ≠ r) → get_guideline_references gs step = []) ∧
      (∀ g ∈ gs, g.id = r → (∀ g2 ∈ gs, g2.id = r → g2 = g) →
        get_guideline_references gs step = g.criteria)) := by
  constructor
  · intro h
    rw [get_guideline_references, if_pos h]
  · intro r hr hne
    have ht : pyTruthyStr step.guideline_reference = true := by
      rw [hr, pyTruthyStr]
      simpa using hne
    constructor
    · intro hnone
      rw [get_guideline_references, if_neg (by rw [ht]; simp), hr]
      have hfnone : gs.find? (fun g => g.id == r) = none := by
        rw [List.find?_eq_none]
        intro g hg
        simpa using hnone g hg
      show (match gs.find? (fun g => g.id == r) with
            | some g => g.criteria
            | none => []) = []
      rw [hfnone]
    · intro g hg hid huniq
      rw [get_guideline_references, if_neg (by rw [ht]; simp), hr]
      show (match gs.find? (fun g => g.id == r) with
            | some g => g.criteria
            | none => []) = g.criteria
      cases hfind : gs.find? (fun g => g.id == r) with
      | none =>
          exfalso
          have := List.find?_eq_none.mp hfind g hg
          simp [hid] at this
      | some g2 =>
          have h2id : g2.id = r := by
            have := List.find?_some hfind
            simpa using this
          have h2mem : g2 ∈ gs := List.mem_of_find?_eq_some hfind
          show g2.criteria = g.criteria
          rw [huniq g2 h2mem h2id]

/-- Corpus used by the C9 witness. -/
def c9WGuide : Guideline :=
  { id := "G1", title := "T", criteria := ["criterion a", "criterion b"],
    risk_factors := ["r1"] }

/-- Step used by the C9 witness, referencing `G1`. -/
def c9WStep : DiagnosticStep :=
  { step_number := 5, reasoning := "r", supporting_evidence := [],
    guideline_reference := some "G1", confidence_score := 0 }

/-- Witness for the amended C9 at a concrete corpus and step. -/
theorem C9_witness :
    (pyTruthyStr c9WStep.guideline_reference = false →
      get_guideline_references [c9WGuide] c9WStep = []) ∧
    (∀ r, c9WStep.guideline_reference = some r → r ≠ "" →
      ((∀ g ∈ [c9WGuide], g.id ≠ r) →
        get_guideline_references [c9WGuide] c9WStep = []) ∧
      (∀ g ∈ [c9WGuide], g.id = r → (∀ g2 ∈ [c9WGuide], g2.id = r → g2 = g) →
        get_guideline_references [c9WGuide] c9WStep = g.criteria)) :=
  C9_reference_resolution_amended [c9WGuide] c9WStep

/-- C2 counterexample: the guard `if not reasoning_steps:` fires only on
the empty list, so a single-step list reaches the general branch, where
the consecutive-pair list is empty — numpy's mean of an empty list is NaN
(modelled `none`), not 0.0 — and the flow score is the self-similarity of
the single step, not 0.0. -/
theorem C2_counterexample :
    evaluate_reasoning_structure (fun _ => [1]) (fun _ _ => 1) ["a"] ≠
      { step_coherence := some 0, reasoning_flow := some 0 } := by
  intro h
  have : (evaluate_reasoning_structure (fun _ => [1]) (fun _ _ => 1)
      ["a"]).step_coherence = some 0 := by rw [h]
  exact Option.noConfusion this

/-- C2 (amended): the empty step list yields coherence 0.0 and flow 0.0,
but a single-step list bypasses the guard: its coherence is the mean of an
empty list (NaN, modelled `none`) and its flow is the similarity of the
single step's embedding with itself. -/
theorem C2_reasoning_structure_amended (encode : String → List ℚ)
    (cos : List ℚ → List ℚ → ℚ) :
    evaluate_reasoning_structure encode cos [] =
      { step_coherence := some 0, reasoning_flow := some 0 } ∧
    ∀ s, evaluate_reasoning_structure encode cos [s] =
      { step_coherence := none,
        reasoning_flow := some (cos (encode s) (encode s)) } := by
  constructor
  · rfl
  · intro s
    rfl

/-- C5: the observation-mode confidence is `min 1 (0.5 + 0.1 * n)` for a
step whose resolver produced `n` references; in particular one matching
corpus entry gives 0.6 and none gives the floor 0.5. -/
theorem C5_observation_confidence (corpus : List (String × String))
    (d : String) (n : Nat)
    (h : n = (observation_references corpus d).length) :
    observation_confidence n = min 1 (1/2 + (1/10) * (n : ℚ)) ∧
    (n = 1 → observation_confidence n = 6/10) ∧
    (n = 0 → observation_confidence n = 1/2) := by
  refine ⟨rfl, ?_, ?_⟩ <;> rintro rfl <;> rw [observation_confidence] <;>
    norm_num [min_def]

/-- Witness for C5: a one-entry corpus whose serialized text contains the
diagnosis, so the resolver returns exactly one reference. -/
theorem C5_witness :
    observation_confidence 1 = min 1 (1/2 + (1/10) * ((1 : Nat) : ℚ)) ∧
    ((1 : Nat) = 1 → observation_confidence 1 = 6/10) ∧
    ((1 : Nat) = 0 → observation_confidence 1 = 1/2) :=
  C5_observation_confidence [("entry1", "Influenza: fever and cough")]
    "fever" 1 (by decide)

/-! ## Lemmas about the running maximum -/

theorem foldl_max_mem (x : ℚ) (xs : List ℚ) :
    xs.foldl max x = x ∨ xs.foldl max x ∈ xs := by
  induction xs generalizing x with
  | nil => exact Or.inl rfl
  | cons y ys ih =>
      simp only [List.foldl_cons]
      rcases ih (max x y) with h | h
      · rcases max_choice x y with hc | hc
        · exact Or.inl (by rw [h, hc])
        · exact Or.inr (by rw [h, hc]; exact List.mem_cons_self y ys)
      · exact Or.inr (List.mem_cons_of_mem y h)

theorem le_foldl_max (x : ℚ) (xs : List ℚ) :
    x ≤ xs.foldl max x ∧ ∀ s ∈ xs, s ≤ xs.foldl max x := by
  induction xs generalizing x with
  | nil => exact ⟨le_refl x, by simp⟩
  | cons y ys ih =>
      simp only [List.foldl_cons]
      obtain ⟨h1, h2⟩ := ih (max x y)
      refine ⟨le_trans (le_max_left x y) h1, ?_⟩
      intro s hs
      rcases List.mem_cons.mp hs with rfl | hs
      · exact le_trans (le_max_right x s) h1
      · exact h2 s hs

/-- C7: invoked with an empty guideline list the adherence evaluation
fails loudly (the similarity call rejects a 0-sample matrix) instead of
returning zeros; with a non-empty list it succeeds, and the returned
record holds the maximum of the reasoning-to-guideline similarities, their
mean, and the fraction strictly above 0.5. -/
theorem C7_adherence_fails_loudly_on_empty (encode : String → List ℚ)
    (cos : List ℚ → List ℚ → ℚ) (reasoning : String)
    (guidelines : List String) :
    (guidelines = [] →
      evaluate_guideline_adherence encode cos reasoning guidelines =
        Except.error "Found array with 0 samples") ∧
    (guidelines ≠ [] →
      ∃ r, evaluate_guideline_adherence encode cos reasoning guidelines =
          Except.ok r ∧
        r.max_guideline_similarity ∈ simRow encode cos reasoning guidelines ∧
        (∀ s ∈ simRow encode cos reasoning guidelines,
          s ≤ r.max_guideline_similarity) ∧
        r.mean_guideline_similarity =
          (simRow encode cos reasoning guidelines).sum /
            ((simRow encode cos reasoning guidelines).length : ℚ) ∧
        r.guideline_coverage =
          (((simRow encode cos reasoning guidelines).filter
              fun s => (1 : ℚ)/2 < s).length : ℚ) /
            ((simRow encode cos reasoning guidelines).length : ℚ)) := by
  constructor
  · rintro rfl
    rfl
  · intro hne
    cases guidelines with
    | nil => exact absurd rfl hne
    | cons g gl =>
        refine ⟨_, rfl, ?_, ?_, rfl, rfl⟩
        · show (npMax (simRow encode cos reasoning (g :: gl))).getD 0 ∈
            simRow encode cos reasoning (g :: gl)
          rw [simRow, List.map_cons, npMax]
          rcases foldl_max_mem (cos (encode reasoning) (encode g))
              (gl.map fun x => cos (encode reasoning) (encode x)) with h | h
          · rw [Option.getD_some, h]
            exact List.mem_cons_self _ _
          · rw [Option.getD_some]
            exact List.mem_cons_of_mem _ h
        · show ∀ s ∈ simRow encode cos reasoning (g :: gl),
            s ≤ (npMax (simRow encode cos reasoning (g :: gl))).getD 0
          rw [simRow, List.map_cons, npMax, Option.getD_some]
          intro s hs
          obtain ⟨h1, h2⟩ := le_foldl_max (cos (encode reasoning) (encode g))
            (gl.map fun x => cos (encode reasoning) (encode x))
          rcases List.mem_cons.mp hs with rfl | hs
          · exact h1
          · exact h2 s hs

/-- Unfolding of the aggregation loop when every category has a non-empty
metric bundle and a weight: the result is the accumulator plus the
weighted sum of category means. -/
theorem overallLoop_spec (w : List (String × ℚ)) :
    ∀ (l : List (String × List ℚ)),
      (∀ p ∈ l, p.2 ≠ []) → (∀ p ∈ l, (lookupW w p.1).isSome) →
      ∀ s : ℚ, overallLoop w l s =
        some (s + (l.map fun p =>
          (p.2.sum / (p.2.length : ℚ)) * (lookupW w p.1).getD 0).sum) := by
  intro l
  induction l with
  | nil =>
      intro _ _ s
      simp [overallLoop]
  | cons p rest ih =>
      intro h1 h2 s
      have hp1 : p.2 ≠ [] := h1 p (List.mem_cons_self p rest)
      have hp2 : (lookupW w p.1).isSome := h2 p (List.mem_cons_self p rest)
      obtain ⟨wt, hwt⟩ := Option.isSome_iff_exists.mp hp2
      have hm : npMean p.2 = some (p.2.sum / (p.2.length : ℚ)) := by
        rw [npMean, if_neg]
        simpa [List.isEmpty_iff] using hp1
      rw [overallLoop, hm, hwt]
      change overallLoop w rest (s + p.2.sum / (p.2.length : ℚ) * wt) = _
      rw [ih (fun q hq => h1 q (List.mem_cons_of_mem p hq))
          (fun q hq => h2 q (List.mem_cons_of_mem p hq))]
      rw [List.map_cons, List.sum_cons, hwt, Option.getD_some]
      rw [add_assoc]

/-- C6: with non-empty metric bundles and a weight for every category, the
overall score is the sum over categories of the category's metric mean
times its weight; and at the spec's example — category means 0.8, 0.6,
0.4 under the default weights 0.4 / 0.3 / 0.3 — it is exactly 0.62. -/
theorem C6_overall_score (metrics : List (String × List ℚ))
    (weights : List (String × ℚ))
    (h1 : ∀ p ∈ metrics, p.2 ≠ [])
    (h2 : ∀ p ∈ metrics, (lookupW weights p.1).isSome) :
    calculate_overall_score metrics (some weights) =
      some ((metrics.map fun p =>
        (p.2.sum / (p.2.length : ℚ)) * (lookupW weights p.1).getD 0).sum) ∧
    calculate_overall_score
      [("guideline_adherence", [8/10]), ("reasoning_structure", [6/10]),
       ("completeness", [4/10])] none = some (62/100) := by
  constructor
  · rw [calculate_overall_score,
      show (some weights).getD defaultWeights = weights from rfl]
    rw [overallLoop_spec weights metrics h1 h2 0]
    rw [zero_add]
  · rw [calculate_overall_score,
      show (none : Option (List (String × ℚ))).getD defaultWeights =
        defaultWeights from rfl]
    rw [overallLoop_spec defaultWeights
      [("guideline_adherence", [8/10]), ("reasoning_structure", [6/10]),
       ("completeness", [4/10])] (by decide) (by decide) 0]
    have w1 : lookupW defaultWeights "guideline_adherence" = some (4/10) := rfl
    have w2 : lookupW defaultWeights "reasoning_structure" = some (3/10) := rfl
    have w3 : lookupW defaultWeights "completeness" = some (3/10) := rfl
    norm_num [w1, w2, w3]

/-- Witness for C6 at the spec's example bundles and the default weights. -/
theorem C6_witness :
    calculate_overall_score
      [("guideline_adherence", [8/10]), ("reasoning_structure", [6/10]),
       ("completeness", [4/10])] (some defaultWeights) =
      some (([("guideline_adherence", ([8/10] : List ℚ)),
        ("reasoning_structure", [6/10]), ("completeness", [4/10])].map fun p =>
        (p.2.sum / (p.2.length : ℚ)) * (lookupW defaultWeights p.1).getD 0).sum) ∧
    calculate_overall_score
      [("guideline_adherence", [8/10]), ("reasoning_structure", [6/10]),
       ("completeness", [4/10])] none = some (62/100) :=
  C6_overall_score _ defaultWeights (by decide) (by decide)
